import Mathlib

/-!
Verification of the shopping-list backend (`backend/handlers.go`).

The Go handlers are shallowly embedded as pure Lean functions: the relational
store is passed explicitly as lists of records, SQL statements become list
operations, `float64` columns become `ℚ` (exact arithmetic), timestamps become
`ℚ` epoch seconds, and Go `len` on a string becomes `String.utf8ByteSize`
(Go `len` counts bytes of the UTF-8 encoding).  HTTP error responses become an
explicit error type.
-/

set_option allowUnsafeReducibility true in
attribute [semireducible] Rat.add Rat.sub Rat.mul Rat.inv

/-- A shopping-list item row (table `items`). -/
structure Item where
  id : String
  listId : String
  name : String
  checked : Bool
  sortOrder : ℚ
  isSeparator : Bool
  createdAt : ℚ
deriving DecidableEq, Repr

/-- A shopping list row (table `lists`). -/
structure ShoppingList where
  id : String
  name : String
  emoji : Option String
  hexColor : String
  createdAt : ℚ
deriving DecidableEq, Repr

/-- An item-history row (table `item_history`), keyed by (list id, item name). -/
structure ItemHistory where
  listId : String
  itemName : String
  addedCount : Nat
  lastAddedAt : ℚ
  avgDaysBetween : ℚ
  dismissed : Bool
deriving DecidableEq, Repr

/-- A recommendation returned by `GetRecommendations`. -/
structure Recommendation where
  name : String
  urgency : ℚ
deriving DecidableEq, Repr

/-- HTTP-level errors issued by the handlers (`http.Error` calls). -/
inductive HErr where
  | badRequest : String → HErr
  | notFound : String → HErr
  | serverError : String → HErr
deriving DecidableEq, Repr

/-- Descending comparison on urgency, the sort key of `ORDER BY urgency DESC`. -/
def recUrgencyGE (a b : Recommendation) : Prop := b.urgency ≤ a.urgency

instance : DecidableRel recUrgencyGE :=
  fun a b => inferInstanceAs (Decidable (b.urgency ≤ a.urgency))

instance : IsTotal Recommendation recUrgencyGE := ⟨fun a b => le_total b.urgency a.urgency⟩

instance : IsTrans Recommendation recUrgencyGE := ⟨fun _ _ _ h1 h2 => le_trans h2 h1⟩

/-- The urgency the SQL `CASE` expression computes for one history row:
`(NOW() - last_added_at) / 86400 / avg_days_between` when `avg_days_between > 0`,
else `0.5`. -/
def urgencyOf (now : ℚ) (h : ItemHistory) : ℚ :=
  if 0 < h.avgDaysBetween then ((now - h.lastAddedAt) / 86400) / h.avgDaysBetween
  else 1/2

/-- The `WHERE` clause of the recommendations query: row belongs to the list,
not dismissed, added at least twice, and its name is not among the list's
current item names (SQL `NOT IN` subquery, exact string comparison). -/
def selectsRow (listId : String) (items : List Item) (h : ItemHistory) : Bool :=
  h.listId == listId && !h.dismissed && decide (2 ≤ h.addedCount) &&
    !(items.any fun it => it.listId == listId && it.name == h.itemName)

/-- The full recommendations `SELECT`: filter rows, score them, order by
urgency descending (a stable sort models `ORDER BY urgency DESC` with ties in
storage order), keep the first 10 (`LIMIT 10`), then the Go loop keeps only
rows with urgency at least `0.5`. -/
def recommendationQuery (now : ℚ) (listId : String) (history : List ItemHistory)
    (items : List Item) : List Recommendation :=
  let scored := (history.filter (selectsRow listId items)).map
    fun h => { name := h.itemName, urgency := urgencyOf now h }
  ((scored.insertionSort recUrgencyGE).take 10).filter fun r => decide ((1:ℚ)/2 ≤ r.urgency)

/-- Handler `GetRecommendations`: empty list id is a client error; a failing
history query (`queryResult = .error`) degrades to an empty successful result;
otherwise the query result is returned. -/
def GetRecommendations (now : ℚ) (listId : String)
    (queryResult : Except String (List ItemHistory)) (items : List Item) :
    Except HErr (List Recommendation) :=
  if listId = "" then .error (.badRequest "List ID is required")
  else
    match queryResult with
    | .error _ => .ok []
    | .ok history => .ok (recommendationQuery now listId history items)

example : recommendationQuery 0 "L"
    [{ listId := "L", itemName := "milk", addedCount := 3, lastAddedAt := -864000,
       avgDaysBetween := 5, dismissed := false },
     { listId := "L", itemName := "eggs", addedCount := 1, lastAddedAt := -259200,
       avgDaysBetween := 7, dismissed := false }] [] =
    [{ name := "milk", urgency := 2 }] := by decide

/-- Handler `DismissRecommendation`: `UPDATE item_history SET dismissed = true
WHERE list_id = $1 AND item_name = $2`, then an unconditional success response
(the handler does not inspect the affected row count). -/
def DismissRecommendation (listId name : String) (history : List ItemHistory) :
    List ItemHistory × Except HErr Unit :=
  if listId = "" || name = "" then
    (history, .error (.badRequest "List ID and item name are required"))
  else
    (history.map fun h =>
      if h.listId == listId && h.itemName == name then { h with dismissed := true } else h,
     .ok ())

/-- The `SET` clause of the `TrackItemAddition` update, evaluated on the old
row: increment `added_count`; recompute `avg_days_between` as the weighted
running average when the old `added_count` is positive and as `7` otherwise;
set `last_added_at` to now; clear `dismissed`. -/
def trackUpdateRow (now : ℚ) (h : ItemHistory) : ItemHistory :=
  { h with
    addedCount := h.addedCount + 1,
    avgDaysBetween :=
      if 0 < h.addedCount then
        (h.avgDaysBetween * h.addedCount + (now - h.lastAddedAt) / 86400) / (h.addedCount + 1)
      else 7,
    lastAddedAt := now,
    dismissed := false }

/-- Background task `TrackItemAddition`: update the existing `(list_id, item_name)` row; if no
row was affected, insert a fresh row with `added_count = 1`,
`avg_days_between = 7`, `dismissed = false`. -/
def TrackItemAddition (now : ℚ) (listId itemName : String) (history : List ItemHistory) :
    List ItemHistory :=
  if history.any (fun h => h.listId == listId && h.itemName == itemName) then
    history.map fun h =>
      if h.listId == listId && h.itemName == itemName then trackUpdateRow now h else h
  else
    history ++ [{ listId := listId, itemName := itemName, addedCount := 1,
                  lastAddedAt := now, avgDaysBetween := 7, dismissed := false }]

/-- The reorder loop: the identifier at the head receives sort order `i` (the
call starts at `i = 1`), each `UPDATE` being scoped to `(id, listId)`. -/
def applyReorder (listId : String) : Nat → List String → List Item → List Item
  | _, [], items => items
  | i, itemId :: rest, items =>
      applyReorder listId (i + 1) rest
        (items.map fun it =>
          if it.id == itemId && it.listId == listId then { it with sortOrder := (i : ℚ) }
          else it)

/-- Handler `ReorderItems`: empty list id or empty `item_ids` are client
errors; otherwise each identifier at 0-based index `i` gets sort order
`i + 1` via an `UPDATE ... WHERE id = $2 AND list_id = $3`. -/
def ReorderItems (listId : String) (itemIds : List String) (items : List Item) :
    List Item × Except HErr Unit :=
  if listId = "" then (items, .error (.badRequest "List ID is required"))
  else if itemIds.isEmpty then (items, .error (.badRequest "item_ids is required"))
  else (applyReorder listId 1 itemIds items, .ok ())

/-- The decoded body of a PATCH item request: absent fields are `none`. -/
structure ItemUpdateInput where
  checked : Option Bool
  name : Option String
  sortOrder : Option ℚ
deriving DecidableEq, Repr

/-- Apply the provided fields of a partial update to one item row. -/
def applyItemUpdate (inp : ItemUpdateInput) (it : Item) : Item :=
  { it with
    checked := inp.checked.getD it.checked,
    name := inp.name.getD it.name,
    sortOrder := inp.sortOrder.getD it.sortOrder }

/-- Handler `UpdateItem`: validate ids, name length (Go `len`, i.e. UTF-8
bytes) and presence of at least one field; then
`UPDATE items SET ... WHERE id = $n AND list_id = $n+1 RETURNING ...` — zero
returned rows is reported as `Item not found`. -/
def UpdateItem (listId id : String) (inp : ItemUpdateInput) (items : List Item) :
    List Item × Except HErr Item :=
  if listId = "" || id = "" then
    (items, .error (.badRequest "List ID and Item ID are required"))
  else if inp.name.any (fun n => 100 < n.utf8ByteSize) then
    (items, .error (.badRequest "Item name must be 100 characters or less"))
  else if inp.checked.isNone && inp.name.isNone && inp.sortOrder.isNone then
    (items, .error (.badRequest "No fields to update"))
  else
    let newItems := items.map fun it =>
      if it.id == id && it.listId == listId then applyItemUpdate inp it else it
    match newItems.find? (fun it => it.id == id && it.listId == listId) with
    | some it => (newItems, .ok it)
    | none => (newItems, .error (.notFound "Item not found"))

/-- Handler `DeleteItem`: `DELETE FROM items WHERE id = $1 AND list_id = $2`;
zero affected rows is reported as `Item not found`. -/
def DeleteItem (listId id : String) (items : List Item) : List Item × Except HErr Unit :=
  if listId = "" || id = "" then
    (items, .error (.badRequest "List ID and Item ID are required"))
  else
    let remaining := items.filter fun it => !(it.id == id && it.listId == listId)
    if remaining.length = items.length then (items, .error (.notFound "Item not found"))
    else (remaining, .ok ())

/-- SQL `COALESCE(MAX(sort_order), 0)`: the maximum of the listed values, `0` when
there are none. -/
def coalesceMax : List ℚ → ℚ
  | [] => 0
  | x :: xs => xs.foldl max x

/-- Handler `CreateItem`: validate list id, name presence (unless separator)
and name length; the new row is appended with sort order one more than the
maximum sort order of the list's items (`0` for an empty list). -/
def CreateItem (now : ℚ) (newId listId name : String) (isSeparator : Bool)
    (items : List Item) : List Item × Except HErr Item :=
  if listId = "" then (items, .error (.badRequest "List ID is required"))
  else if name = "" && !isSeparator then (items, .error (.badRequest "Name is required"))
  else if 100 < name.utf8ByteSize then
    (items, .error (.badRequest "Item name must be 100 characters or less"))
  else
    let maxOrder := coalesceMax ((items.filter fun it => it.listId == listId).map Item.sortOrder)
    let item : Item := { id := newId, listId := listId, name := name, checked := false,
                         sortOrder := maxOrder + 1, isSeparator := isSeparator,
                         createdAt := now }
    (items ++ [item], .ok item)

/-- Handler `CreateList`: name is required and limited to 15 bytes (Go `len`);
an absent hex color defaults to `"42b883"` and is limited to 6 bytes; the new
list row is then inserted. -/
def CreateList (now : ℚ) (newId name : String) (emoji : Option String) (hexColor : String)
    (lists : List ShoppingList) : List ShoppingList × Except HErr ShoppingList :=
  if name = "" then (lists, .error (.badRequest "Name is required"))
  else if 15 < name.utf8ByteSize then
    (lists, .error (.badRequest "Name must be 15 characters or less"))
  else
    let hc := if hexColor = "" then "42b883" else hexColor
    if 6 < hc.utf8ByteSize then (lists, .error (.badRequest "Invalid hex color"))
    else
      let l : ShoppingList := { id := newId, name := name, emoji := emoji, hexColor := hc,
                                createdAt := now }
      (lists ++ [l], .ok l)

/-- The decoded body of a PATCH list request: absent fields are `none`. -/
structure ListUpdateInput where
  name : Option String
  emoji : Option String
  hexColor : Option String
deriving DecidableEq, Repr

/-- Handler `UpdateList`: validate id and field lengths (Go `len`), fetch the
current row, apply the provided fields, and save. -/
def UpdateList (id : String) (inp : ListUpdateInput) (lists : List ShoppingList) :
    List ShoppingList × Except HErr ShoppingList :=
  if id = "" then (lists, .error (.badRequest "List ID is required"))
  else if inp.name.any (fun n => 15 < n.utf8ByteSize) then
    (lists, .error (.badRequest "Name must be 15 characters or less"))
  else if inp.hexColor.any (fun c => 6 < c.utf8ByteSize) then
    (lists, .error (.badRequest "Invalid hex color"))
  else
    match lists.find? (fun l => l.id == id) with
    | none => (lists, .error (.notFound "List not found"))
    | some l =>
      let l2 : ShoppingList :=
        { l with
          name := inp.name.getD l.name,
          emoji := match inp.emoji with | some e => some e | none => l.emoji,
          hexColor := inp.hexColor.getD l.hexColor }
      (lists.map fun x => if x.id == id then l2 else x, .ok l2)

/-! ## Helper lemmas -/

/-- Pointwise conversion between the boolean row-match test and its
propositional form, for item-history rows. -/
theorem historyMatch_eq (listId name : String) (h : ItemHistory) :
    (h.listId == listId && h.itemName == name) =
      decide (h.listId = listId ∧ h.itemName = name) := by
  by_cases h1 : h.listId = listId <;> by_cases h2 : h.itemName = name <;>
    simp [h1, h2]

/-- C10: an item update whose body provides none of `checked`, `name`,
`sort_order` is rejected with the client error `No fields to update` and the
item table is left unchanged. -/
theorem updateItem_no_fields_rejected (listId id : String) (items : List Item)
    (h1 : listId ≠ "") (h2 : id ≠ "") :
    UpdateItem listId id { checked := none, name := none, sortOrder := none } items =
      (items, .error (.badRequest "No fields to update")) := by
  simp [UpdateItem, h1, h2]

/-- Witness for C10 at a concrete input. -/
theorem updateItem_no_fields_rejected_witness :
    ("L" : String) ≠ "" ∧ ("i" : String) ≠ "" ∧
    UpdateItem "L" "i" { checked := none, name := none, sortOrder := none } [] =
      ([], .error (.badRequest "No fields to update")) :=
  ⟨by decide, by decide, updateItem_no_fields_rejected "L" "i" [] (by decide) (by decide)⟩

/-- C8: when the history query fails, `GetRecommendations` returns the empty
sequence as a successful result instead of propagating the error. -/
theorem getRecommendations_failure_empty (now : ℚ) (listId : String) (e : String)
    (items : List Item) (h1 : listId ≠ "") :
    GetRecommendations now listId (.error e) items = .ok [] := by
  simp [GetRecommendations, h1]

/-- Witness for C8 at a concrete input. -/
theorem getRecommendations_failure_empty_witness :
    ("L" : String) ≠ "" ∧
    GetRecommendations 0 "L" (.error "relation item_history does not exist") [] = .ok [] :=
  ⟨by decide, getRecommendations_failure_empty 0 "L" "relation item_history does not exist" []
    (by decide)⟩

/-- C5: `DismissRecommendation` maps each matching history row to the same row
with `dismissed := true`, leaves `added_count`, `avg_days_between` and
`last_added_at` of every row unchanged, leaves non-matching rows entirely
unchanged, reports success, and is a complete no-op on the store when no row
matches. -/
theorem dismissRecommendation_spec (listId name : String) (history : List ItemHistory)
    (h1 : listId ≠ "") (h2 : name ≠ "") :
    DismissRecommendation listId name history =
      (history.map fun h =>
        if h.listId = listId ∧ h.itemName = name then { h with dismissed := true } else h,
       .ok ()) ∧
    (∀ h : ItemHistory,
      (if h.listId = listId ∧ h.itemName = name then { h with dismissed := true } else h).addedCount
          = h.addedCount ∧
      (if h.listId = listId ∧ h.itemName = name then { h with dismissed := true } else h).avgDaysBetween
          = h.avgDaysBetween ∧
      (if h.listId = listId ∧ h.itemName = name then { h with dismissed := true } else h).lastAddedAt
          = h.lastAddedAt ∧
      (¬(h.listId = listId ∧ h.itemName = name) →
        (if h.listId = listId ∧ h.itemName = name then { h with dismissed := true } else h) = h)) ∧
    ((∀ h ∈ history, ¬(h.listId = listId ∧ h.itemName = name)) →
      (DismissRecommendation listId name history).1 = history) := by
  have hrow : ∀ h : ItemHistory,
      (if h.listId == listId && h.itemName == name then { h with dismissed := true } else h) =
        (if h.listId = listId ∧ h.itemName = name then { h with dismissed := true } else h) := by
    intro h
    by_cases hc1 : h.listId = listId <;> by_cases hc2 : h.itemName = name <;> simp [hc1, hc2]
  have hmap : DismissRecommendation listId name history =
      (history.map fun h =>
        if h.listId = listId ∧ h.itemName = name then { h with dismissed := true } else h,
       .ok ()) := by
    simp only [DismissRecommendation]
    rw [if_neg (by simp [h1, h2])]
    simp only [Prod.mk.injEq]
    exact ⟨List.map_congr_left fun h _ => hrow h, trivial⟩
  refine ⟨hmap, ?_, ?_⟩
  · intro h
    by_cases hc : h.listId = listId ∧ h.itemName = name <;> simp [hc]
  · intro hnone
    rw [hmap]
    simp only
    rw [List.map_congr_left fun h hm => if_neg (hnone h hm)]
    simp

/-- Witness for C5 at a concrete input. -/
theorem dismissRecommendation_spec_witness :
    ("L" : String) ≠ "" ∧ ("milk" : String) ≠ "" ∧
    DismissRecommendation "L" "milk"
        [{ listId := "L", itemName := "milk", addedCount := 3, lastAddedAt := 0,
           avgDaysBetween := 5, dismissed := false }] =
      ([{ listId := "L", itemName := "milk", addedCount := 3, lastAddedAt := 0,
          avgDaysBetween := 5, dismissed := false }].map fun h =>
        if h.listId = "L" ∧ h.itemName = "milk" then { h with dismissed := true } else h,
       .ok ()) :=
  ⟨by decide, by decide,
    (dismissRecommendation_spec "L" "milk"
      [{ listId := "L", itemName := "milk", addedCount := 3, lastAddedAt := 0,
         avgDaysBetween := 5, dismissed := false }] (by decide) (by decide)).1⟩

/-- C6: an update or deletion naming an existing item id under the wrong list
id yields the same `Item not found` error as a completely unknown id, and the
item table is unchanged in all of these cases. -/
theorem crossList_mutation_notFound (listId id : String) (inp : ItemUpdateInput)
    (items : List Item) (h1 : listId ≠ "") (h2 : id ≠ "")
    (hval : ∀ n, inp.name = some n → n.utf8ByteSize ≤ 100)
    (hsome : ¬(inp.checked = none ∧ inp.name = none ∧ inp.sortOrder = none))
    (_hex : ∃ it ∈ items, it.id = id)
    (hforeign : ∀ it ∈ items, it.id = id → it.listId ≠ listId) :
    UpdateItem listId id inp items = (items, .error (.notFound "Item not found")) ∧
    DeleteItem listId id items = (items, .error (.notFound "Item not found")) ∧
    (∀ idMissing : String, idMissing ≠ "" → (∀ it ∈ items, it.id ≠ idMissing) →
      UpdateItem listId idMissing inp items = (items, .error (.notFound "Item not found")) ∧
      DeleteItem listId idMissing items = (items, .error (.notFound "Item not found"))) := by
  have noMatch : ∀ tid : String, (∀ it ∈ items, it.id = tid → it.listId ≠ listId) →
      ∀ it ∈ items, (it.id == tid && it.listId == listId) = false := by
    intro tid hmiss it hmem
    by_cases hid : it.id = tid
    · have := hmiss it hmem hid
      simp [hid, this]
    · simp [hid]
  have updEq : ∀ tid : String, tid ≠ "" → (∀ it ∈ items, it.id = tid → it.listId ≠ listId) →
      UpdateItem listId tid inp items = (items, .error (.notFound "Item not found")) := by
    intro tid htid hmiss
    have hnm := noMatch tid hmiss
    have hlen : ¬(inp.name.any (fun n => decide (100 < n.utf8ByteSize)) = true) := by
      intro hc
      cases hn : inp.name with
      | none => rw [hn] at hc; exact Bool.false_ne_true hc
      | some n =>
        rw [hn] at hc
        exact absurd (hval n hn) (by simpa using hc)
    have hfields : ¬((inp.checked.isNone && inp.name.isNone && inp.sortOrder.isNone) = true) := by
      intro hc
      simp only [Bool.and_eq_true, Option.isNone_iff_eq_none] at hc
      exact hsome ⟨hc.1.1, hc.1.2, hc.2⟩
    simp only [UpdateItem]
    rw [if_neg (by simp [h1, htid])]
    rw [if_neg hlen, if_neg hfields]
    have hmapid : (items.map fun it =>
        if it.id == tid && it.listId == listId then applyItemUpdate inp it else it) = items := by
      rw [List.map_congr_left fun it hm => by rw [hnm it hm]]
      simp
    rw [hmapid]
    rw [List.find?_eq_none.mpr fun it hm => by simp [hnm it hm]]
  have delEq : ∀ tid : String, tid ≠ "" → (∀ it ∈ items, it.id = tid → it.listId ≠ listId) →
      DeleteItem listId tid items = (items, .error (.notFound "Item not found")) := by
    intro tid htid hmiss
    have hnm := noMatch tid hmiss
    simp only [DeleteItem]
    rw [if_neg (by simp [h1, htid])]
    have hfilter : (items.filter fun it => !(it.id == tid && it.listId == listId)) = items :=
      List.filter_eq_self.mpr fun it hm => by simp [hnm it hm]
    rw [hfilter, if_pos rfl]
  refine ⟨updEq id h2 hforeign, delEq id h2 hforeign, ?_⟩
  intro idMissing hm1 hm2
  have hmiss : ∀ it ∈ items, it.id = idMissing → it.listId ≠ listId := by
    intro it hmem hid
    exact absurd hid (hm2 it hmem)
  exact ⟨updEq idMissing hm1 hmiss, delEq idMissing hm1 hmiss⟩

/-- Witness for C6 at a concrete input. -/
theorem crossList_mutation_notFound_witness :
    UpdateItem "L1" "i1" { checked := some true, name := none, sortOrder := none }
        [{ id := "i1", listId := "L2", name := "milk", checked := false, sortOrder := 1,
           isSeparator := false, createdAt := 0 }] =
      ([{ id := "i1", listId := "L2", name := "milk", checked := false, sortOrder := 1,
          isSeparator := false, createdAt := 0 }], .error (.notFound "Item not found")) ∧
    DeleteItem "L1" "i1"
        [{ id := "i1", listId := "L2", name := "milk", checked := false, sortOrder := 1,
           isSeparator := false, createdAt := 0 }] =
      ([{ id := "i1", listId := "L2", name := "milk", checked := false, sortOrder := 1,
          isSeparator := false, createdAt := 0 }], .error (.notFound "Item not found")) :=
  ⟨(crossList_mutation_notFound "L1" "i1" { checked := some true, name := none, sortOrder := none }
      [{ id := "i1", listId := "L2", name := "milk", checked := false, sortOrder := 1,
         isSeparator := false, createdAt := 0 }] (by decide) (by decide)
      (by intro n hn; cases hn) (by intro hc; cases hc.1)
      ⟨_, List.mem_singleton.mpr rfl, rfl⟩
      (by intro it hm hid; rw [List.mem_singleton] at hm; subst hm; decide)).1,
   (crossList_mutation_notFound "L1" "i1" { checked := some true, name := none, sortOrder := none }
      [{ id := "i1", listId := "L2", name := "milk", checked := false, sortOrder := 1,
         isSeparator := false, createdAt := 0 }] (by decide) (by decide)
      (by intro n hn; cases hn) (by intro hc; cases hc.1)
      ⟨_, List.mem_singleton.mpr rfl, rfl⟩
      (by intro it hm hid; rw [List.mem_singleton] at hm; subst hm; decide)).2.1⟩

/-- Every listed value is bounded by the running maximum of a fold. -/
theorem foldl_max_bounds (xs : List ℚ) : ∀ acc : ℚ,
    acc ≤ xs.foldl max acc ∧ ∀ q ∈ xs, q ≤ xs.foldl max acc := by
  induction xs with
  | nil => intro acc; exact ⟨le_refl _, by simp⟩
  | cons x xs ih =>
    intro acc
    refine ⟨le_trans (le_max_left acc x) (ih (max acc x)).1, ?_⟩
    intro q hq
    rcases List.mem_cons.mp hq with h | h
    · subst h
      exact le_trans (le_max_right acc q) (ih (max acc q)).1
    · exact (ih (max acc x)).2 q h

/-- Every listed value is bounded by `coalesceMax`. -/
theorem le_coalesceMax (l : List ℚ) (q : ℚ) (hq : q ∈ l) : q ≤ coalesceMax l := by
  cases l with
  | nil => cases hq
  | cons x xs =>
    rcases List.mem_cons.mp hq with h | h
    · subst h
      exact (foldl_max_bounds xs q).1
    · exact (foldl_max_bounds xs x).2 q h

/-- C9: item creation appends a row whose sort order is one more than the
maximum sort order among the list's items (`0` when the list has none), so the
new item sorts strictly after every existing item of that list. -/
theorem createItem_sortOrder_spec (now : ℚ) (newId listId name : String)
    (isSeparator : Bool) (items : List Item) (h1 : listId ≠ "")
    (h2 : ¬(name = "" ∧ isSeparator = false)) (h3 : name.utf8ByteSize ≤ 100) :
    ∃ item : Item,
      CreateItem now newId listId name isSeparator items = (items ++ [item], .ok item) ∧
      item.sortOrder =
        coalesceMax ((items.filter fun it => it.listId == listId).map Item.sortOrder) + 1 ∧
      ((items.filter fun it => it.listId == listId) = [] → item.sortOrder = 1) ∧
      (∀ it ∈ items, it.listId = listId → it.sortOrder < item.sortOrder) := by
  have hc2 : ¬((name = "" && !isSeparator) = true) := by
    intro hc
    simp only [Bool.and_eq_true, decide_eq_true_eq, Bool.not_eq_true'] at hc
    exact h2 hc
  have hc3 : ¬(100 < name.utf8ByteSize) := by omega
  simp only [CreateItem]
  rw [if_neg h1, if_neg hc2, if_neg hc3]
  refine ⟨_, rfl, rfl, ?_, ?_⟩
  · intro hempty
    rw [hempty]
    simp [coalesceMax]
  · intro it hmem hlid
    have hq : it.sortOrder ∈
        (items.filter fun it2 => it2.listId == listId).map Item.sortOrder :=
      List.mem_map.mpr ⟨it, List.mem_filter.mpr ⟨hmem, by simp [hlid]⟩, rfl⟩
    exact lt_add_of_le_of_pos (le_coalesceMax _ _ hq) one_pos

/-- Witness for C9 at a concrete input. -/
theorem createItem_sortOrder_spec_witness :
    ∃ item : Item,
      CreateItem 3 "i2" "L" "eggs" false
          [{ id := "i1", listId := "L", name := "milk", checked := false, sortOrder := 5,
             isSeparator := false, createdAt := 0 }] =
        ([{ id := "i1", listId := "L", name := "milk", checked := false, sortOrder := 5,
            isSeparator := false, createdAt := 0 }] ++ [item], .ok item) ∧
      item.sortOrder = coalesceMax
        (([{ id := "i1", listId := "L", name := "milk", checked := false, sortOrder := 5,
             isSeparator := false, createdAt := 0 }].filter
            fun it => it.listId == "L").map Item.sortOrder) + 1 ∧
      ((([{ id := "i1", listId := "L", name := "milk", checked := false, sortOrder := 5,
            isSeparator := false, createdAt := 0 }] : List Item).filter
          fun it => it.listId == "L") = [] → item.sortOrder = 1) ∧
      (∀ it ∈ ([{ id := "i1", listId := "L", name := "milk", checked := false, sortOrder := 5,
                  isSeparator := false, createdAt := 0 }] : List Item),
        it.listId = "L" → it.sortOrder < item.sortOrder) :=
  createItem_sortOrder_spec 3 "i2" "L" "eggs" false
    [{ id := "i1", listId := "L", name := "milk", checked := false, sortOrder := 5,
       isSeparator := false, createdAt := 0 }]
    (by decide) (by intro hc; exact absurd hc.1 (by decide)) (by decide)

/-- C3: when a history row for `(listId, itemName)` exists (all stored rows
have a positive `added_count`), `TrackItemAddition` increments that row's
`added_count` by one, replaces `avg_days_between` by the weighted running
average `(old_avg * old_count + days_since_last) / (old_count + 1)` with
`days_since_last = (now - last_added_at) / 86400`, sets `last_added_at` to
`now` and clears `dismissed`; when no row matches, it appends a row with
`added_count = 1`, `avg_days_between = 7`, `dismissed = false`. -/
theorem trackItemAddition_spec (now : ℚ) (listId itemName : String)
    (history : List ItemHistory) (hpos : ∀ h ∈ history, 0 < h.addedCount) :
    ((∃ h ∈ history, h.listId = listId ∧ h.itemName = itemName) →
      TrackItemAddition now listId itemName history = history.map fun h =>
        if h.listId = listId ∧ h.itemName = itemName then
          { h with
            addedCount := h.addedCount + 1,
            avgDaysBetween := (h.avgDaysBetween * h.addedCount +
              (now - h.lastAddedAt) / 86400) / (h.addedCount + 1),
            lastAddedAt := now,
            dismissed := false }
        else h) ∧
    ((∀ h ∈ history, ¬(h.listId = listId ∧ h.itemName = itemName)) →
      TrackItemAddition now listId itemName history =
        history ++ [{ listId := listId, itemName := itemName, addedCount := 1,
                      lastAddedAt := now, avgDaysBetween := 7, dismissed := false }]) := by
  constructor
  · rintro ⟨h0, hm0, hl0, hn0⟩
    have hany : (history.any fun h => h.listId == listId && h.itemName == itemName) = true :=
      List.any_eq_true.mpr ⟨h0, hm0, by simp [hl0, hn0]⟩
    simp only [TrackItemAddition, if_pos hany]
    apply List.map_congr_left
    intro h hm
    by_cases hc : h.listId = listId ∧ h.itemName = itemName
    · rw [if_pos (by simp [hc.1, hc.2]), if_pos hc]
      simp [trackUpdateRow, hpos h hm]
    · rw [if_neg (by simpa using hc), if_neg hc]
  · intro hnone
    have hany : ¬((history.any fun h => h.listId == listId && h.itemName == itemName) = true) := by
      intro hc
      obtain ⟨h, hm, hb⟩ := List.any_eq_true.mp hc
      rw [historyMatch_eq] at hb
      exact hnone h hm (of_decide_eq_true hb)
    simp only [TrackItemAddition, if_neg hany]

/-- Witness for C3 at concrete inputs covering both branches. -/
theorem trackItemAddition_spec_witness :
    (∀ h ∈ [({ listId := "L", itemName := "milk", addedCount := 2, lastAddedAt := 0,
               avgDaysBetween := 5, dismissed := true } : ItemHistory)], 0 < h.addedCount) ∧
    (((∃ h ∈ [({ listId := "L", itemName := "milk", addedCount := 2, lastAddedAt := 0,
                 avgDaysBetween := 5, dismissed := true } : ItemHistory)],
        h.listId = "L" ∧ h.itemName = "milk") →
      TrackItemAddition 864000 "L" "milk"
          [{ listId := "L", itemName := "milk", addedCount := 2, lastAddedAt := 0,
             avgDaysBetween := 5, dismissed := true }] =
        [({ listId := "L", itemName := "milk", addedCount := 2, lastAddedAt := 0,
            avgDaysBetween := 5, dismissed := true } : ItemHistory)].map fun h =>
          if h.listId = "L" ∧ h.itemName = "milk" then
            { h with
              addedCount := h.addedCount + 1,
              avgDaysBetween := (h.avgDaysBetween * h.addedCount +
                (864000 - h.lastAddedAt) / 86400) / (h.addedCount + 1),
              lastAddedAt := 864000,
              dismissed := false }
          else h) ∧
    ((∀ h ∈ [({ listId := "L", itemName := "milk", addedCount := 2, lastAddedAt := 0,
                avgDaysBetween := 5, dismissed := true } : ItemHistory)],
        ¬(h.listId = "L" ∧ h.itemName = "milk")) →
      TrackItemAddition 864000 "L" "milk"
          [{ listId := "L", itemName := "milk", addedCount := 2, lastAddedAt := 0,
             avgDaysBetween := 5, dismissed := true }] =
        [{ listId := "L", itemName := "milk", addedCount := 2, lastAddedAt := 0,
           avgDaysBetween := 5, dismissed := true }] ++
          [{ listId := "L", itemName := "milk", addedCount := 1, lastAddedAt := 864000,
             avgDaysBetween := 7, dismissed := false }])) :=
  ⟨by decide,
   trackItemAddition_spec 864000 "L" "milk"
     [{ listId := "L", itemName := "milk", addedCount := 2, lastAddedAt := 0,
        avgDaysBetween := 5, dismissed := true }] (by decide)⟩

/-- C7 counterexample: `"ääääääää"` has 8 characters (at most 15) and is
nonempty, yet list creation rejects it on grounds of length, because the Go
code limits `len(name)` — the UTF-8 byte length, here 16 — rather than the
character count. -/
theorem listName_length_counterexample :
    ("ääääääää" : String).length = 8 ∧
    ("ääääääää" : String) ≠ "" ∧
    ("ääääääää" : String).utf8ByteSize = 16 ∧
    (CreateList 0 "id1" "ääääääää" none "" []).2 =
      .error (.badRequest "Name must be 15 characters or less") :=
  ⟨by decide, by decide, by decide, rfl⟩

/-- C7 (amended): list creation and update reject exactly the names longer
than 15 UTF-8 bytes, before any storage access (the store is returned
unchanged and the outcome does not depend on it), never reject a name of at
most 15 bytes on grounds of length, and creation rejects an empty name as
required. -/
theorem listName_byteLength_validation (now : ℚ) (newId name : String)
    (emoji : Option String) (hexColor : String) (lists : List ShoppingList)
    (id : String) (inp : ListUpdateInput) :
    (name = "" → CreateList now newId name emoji hexColor lists =
      (lists, .error (.badRequest "Name is required"))) ∧
    (name ≠ "" → 15 < name.utf8ByteSize → CreateList now newId name emoji hexColor lists =
      (lists, .error (.badRequest "Name must be 15 characters or less"))) ∧
    (name.utf8ByteSize ≤ 15 → (CreateList now newId name emoji hexColor lists).2 ≠
      .error (.badRequest "Name must be 15 characters or less")) ∧
    (id ≠ "" → ∀ n, inp.name = some n → 15 < n.utf8ByteSize →
      UpdateList id inp lists =
        (lists, .error (.badRequest "Name must be 15 characters or less"))) ∧
    ((∀ n, inp.name = some n → n.utf8ByteSize ≤ 15) → (UpdateList id inp lists).2 ≠
      .error (.badRequest "Name must be 15 characters or less")) := by
  refine ⟨?_, ?_, ?_, ?_, ?_⟩
  · intro h
    simp [CreateList, h]
  · intro hne hlong
    simp only [CreateList]
    rw [if_neg hne, if_pos hlong]
  · intro hshort
    simp only [CreateList]
    split_ifs with h0 h1 h2 h3 <;> first | omega | simp
  · intro hid n hn hlong
    simp only [UpdateList, hn]
    rw [if_neg hid]
    rw [if_pos (by simp [Option.any, hlong])]
  · intro hshort
    simp only [UpdateList]
    split_ifs with h0 h1 h2
    · simp
    · exfalso
      cases hn : inp.name with
      | none => rw [hn] at h1; exact Bool.false_ne_true h1
      | some n =>
        rw [hn] at h1
        simp only [Option.any, decide_eq_true_eq] at h1
        exact absurd (hshort n hn) (by omega)
    · simp
    · cases hf : lists.find? fun l => l.id == id with
      | none => simp
      | some l => simp

/-- The cumulative effect of the reorder loop on a single item row. -/
def reorderItemFinal (listId : String) : Nat → List String → Item → Item
  | _, [], it => it
  | i, itemId :: rest, it =>
      reorderItemFinal listId (i + 1) rest
        (if it.id == itemId && it.listId == listId then { it with sortOrder := (i : ℚ) }
         else it)

/-- The reorder loop acts independently on each row. -/
theorem applyReorder_eq_map (listId : String) (ids : List String) :
    ∀ (i : Nat) (items : List Item),
      applyReorder listId i ids items = items.map (reorderItemFinal listId i ids) := by
  induction ids with
  | nil =>
    intro i items
    rw [applyReorder]
    rw [List.map_congr_left fun it _ => (rfl : reorderItemFinal listId i [] it = it)]
    exact (List.map_id items).symm
  | cons a rest ih =>
    intro i items
    rw [applyReorder, ih (i + 1), List.map_map]
    exact List.map_congr_left fun it _ => rfl

/-- A row whose id never occurs in the sequence is untouched. -/
theorem reorderItemFinal_not_mem (listId : String) (ids : List String) :
    ∀ (i : Nat) (it : Item), it.id ∉ ids → reorderItemFinal listId i ids it = it := by
  induction ids with
  | nil => intro i it _; rfl
  | cons a rest ih =>
    intro i it hmem
    rw [reorderItemFinal]
    rw [if_neg (by
      intro hc
      exact hmem (by
        rw [List.mem_cons]
        exact Or.inl (eq_of_beq ((Bool.and_eq_true _ _).mp hc).1)))]
    exact ih (i + 1) it fun hr => hmem (List.mem_cons.mpr (Or.inr hr))

/-- A row of a different list is untouched. -/
theorem reorderItemFinal_other_list (listId : String) (ids : List String) :
    ∀ (i : Nat) (it : Item), it.listId ≠ listId → reorderItemFinal listId i ids it = it := by
  induction ids with
  | nil => intro i it _; rfl
  | cons a rest ih =>
    intro i it hne
    rw [reorderItemFinal]
    rw [if_neg (by
      intro hc
      exact hne (eq_of_beq ((Bool.and_eq_true _ _).mp hc).2))]
    exact ih (i + 1) it hne

/-- A row of the list whose id occurs at 0-based position `p` and at no later
position ends with sort order `i + p`. -/
theorem reorderItemFinal_pos (listId : String) (ids : List String) :
    ∀ (i p : Nat) (tid : String) (it : Item), ids[p]? = some tid →
      it.id = tid → it.listId = listId →
      (∀ q tid2, p < q → ids[q]? = some tid2 → tid2 ≠ tid) →
      reorderItemFinal listId i ids it = { it with sortOrder := ((i + p : Nat) : ℚ) } := by
  induction ids with
  | nil =>
    intro i p tid it hp
    rw [List.getElem?_nil] at hp
    cases hp
  | cons a rest ih =>
    intro i p tid it hp hid hlid hlater
    cases p with
    | zero =>
      rw [List.getElem?_cons_zero] at hp
      injection hp with hp
      subst hp
      rw [reorderItemFinal, if_pos (by simp [hid, hlid])]
      have hnot : ({ it with sortOrder := (i : ℚ) } : Item).id ∉ rest := by
        intro hr
        obtain ⟨q, hqe⟩ := List.mem_iff_getElem?.mp hr
        exact hlater (q + 1) it.id (Nat.succ_pos q)
          (by rw [List.getElem?_cons_succ]; exact hqe) hid
      rw [reorderItemFinal_not_mem listId rest (i + 1) _ hnot]
      simp
    | succ p2 =>
      rw [List.getElem?_cons_succ] at hp
      have hstep : ∀ it2 : Item, it2.id = it.id → it2.listId = it.listId →
          it2.sortOrder = it.sortOrder ∨ True →
          reorderItemFinal listId (i + 1) rest it2 =
            { it2 with sortOrder := ((i + 1 + p2 : Nat) : ℚ) } := by
        intro it2 hid2 hlid2 _
        exact ih (i + 1) p2 tid it2 (by exact hp) (hid2.trans hid) (hlid2.trans hlid)
          fun q tid2 hlt hq => hlater (q + 1) tid2 (Nat.succ_lt_succ hlt)
            (by rw [List.getElem?_cons_succ]; exact hq)
      rw [reorderItemFinal]
      by_cases hc : (it.id == a && it.listId == listId) = true
      · rw [if_pos hc, hstep { it with sortOrder := (i : ℚ) } rfl rfl (Or.inr trivial)]
        have : i + 1 + p2 = i + (p2 + 1) := by omega
        rw [this]
      · rw [if_neg hc, hstep it rfl rfl (Or.inl rfl)]
        have : i + 1 + p2 = i + (p2 + 1) := by omega
        rw [this]

/-- C4 counterexample: with the duplicate input sequence `["a", "a"]` on a
list containing the single item `a`, the item whose identifier is at 1-based
position 1 ends with sort order `2`, not `1`: a later occurrence of the same
identifier overwrites the earlier assignment. -/
theorem reorderItems_counterexample :
    (["a", "a"] : List String)[0]? = some "a" ∧
    ({ id := "a", listId := "L", name := "x", checked := false, sortOrder := 5,
       isSeparator := false, createdAt := 0 } : Item).listId = "L" ∧
    (ReorderItems "L" ["a", "a"]
        [{ id := "a", listId := "L", name := "x", checked := false, sortOrder := 5,
           isSeparator := false, createdAt := 0 }]).1 =
      [{ id := "a", listId := "L", name := "x", checked := false, sortOrder := 2,
         isSeparator := false, createdAt := 0 }] ∧
    ((2 : ℚ) ≠ (0 : ℚ) + 1) := by
  refine ⟨rfl, rfl, ?_, by norm_num⟩
  rfl

/-- C4 (amended): an empty identifier sequence is rejected as a client error
with no state change; a non-empty sequence succeeds, preserves the number of
rows, assigns sort order `p + 1` to the list's item whose identifier sits at
0-based position `p` provided that identifier does not occur again later in
the sequence, and leaves rows untouched whose id is absent from the sequence
or which belong to another list (such identifiers are silently skipped). -/
theorem reorderItems_spec (listId : String) (itemIds : List String) (items : List Item)
    (hl : listId ≠ "") :
    (itemIds = [] →
      ReorderItems listId itemIds items = (items, .error (.badRequest "item_ids is required"))) ∧
    (itemIds ≠ [] →
      (ReorderItems listId itemIds items).2 = .ok () ∧
      (ReorderItems listId itemIds items).1.length = items.length ∧
      (∀ (k : Nat) (it : Item), items[k]? = some it →
        (∀ (p : Nat) (tid : String), itemIds[p]? = some tid → it.id = tid →
          it.listId = listId →
          (∀ (q : Nat) (tid2 : String), p < q → itemIds[q]? = some tid2 → tid2 ≠ tid) →
          (ReorderItems listId itemIds items).1[k]? =
            some ({ it with sortOrder := (p : ℚ) + 1 } : Item)) ∧
        ((it.id ∉ itemIds ∨ it.listId ≠ listId) →
          (ReorderItems listId itemIds items).1[k]? = some it))) := by
  constructor
  · intro hempty
    simp only [ReorderItems]
    rw [if_neg hl, if_pos (by simp [hempty])]
  · intro hne
    have hres : ReorderItems listId itemIds items =
        (items.map (reorderItemFinal listId 1 itemIds), .ok ()) := by
      simp only [ReorderItems]
      rw [if_neg hl, if_neg (by simp [hne]), applyReorder_eq_map]
    rw [hres]
    refine ⟨rfl, by simp, ?_⟩
    intro k it hk
    constructor
    · intro p tid hp hid hlid hlater
      rw [List.getElem?_map, hk]
      simp only [Option.map_some']
      rw [reorderItemFinal_pos listId itemIds 1 p tid it hp hid hlid hlater]
      have : ((1 + p : Nat) : ℚ) = (p : ℚ) + 1 := by push_cast; ring
      rw [this]
    · intro hskip
      rw [List.getElem?_map, hk]
      simp only [Option.map_some']
      rcases hskip with hnm | hol
      · rw [reorderItemFinal_not_mem listId itemIds 1 it hnm]
      · rw [reorderItemFinal_other_list listId itemIds 1 it hol]

/-- Witness for C4 at a concrete input: reordering `[c, a, b]` on a list
containing `a`, `b`, `c` gives `c` sort order 1. -/
theorem reorderItems_spec_witness :
    (["c", "a", "b"] : List String) ≠ [] ∧
    (ReorderItems "L" ["c", "a", "b"]
        [{ id := "a", listId := "L", name := "a", checked := false, sortOrder := 1,
           isSeparator := false, createdAt := 0 },
         { id := "b", listId := "L", name := "b", checked := false, sortOrder := 2,
           isSeparator := false, createdAt := 0 },
         { id := "c", listId := "L", name := "c", checked := false, sortOrder := 3,
           isSeparator := false, createdAt := 0 }]).1[2]? =
      some { id := "c", listId := "L", name := "c", checked := false, sortOrder := (0 : ℚ) + 1,
             isSeparator := false, createdAt := 0 } :=
  ⟨by decide,
   (((reorderItems_spec "L" ["c", "a", "b"]
        [{ id := "a", listId := "L", name := "a", checked := false, sortOrder := 1,
           isSeparator := false, createdAt := 0 },
         { id := "b", listId := "L", name := "b", checked := false, sortOrder := 2,
           isSeparator := false, createdAt := 0 },
         { id := "c", listId := "L", name := "c", checked := false, sortOrder := 3,
           isSeparator := false, createdAt := 0 }] (by decide)).2 (by decide)).2.2 2
      { id := "c", listId := "L", name := "c", checked := false, sortOrder := 3,
        isSeparator := false, createdAt := 0 } rfl).1 0 "c" rfl rfl rfl
    (by
      intro q tid2 hlt hq
      match q, hq with
      | 1, hq => injection hq with hq; subst hq; decide
      | 2, hq => injection hq with hq; subst hq; decide)⟩

/-- C1: the recommendations handler returns the query result fresh from the
store; it has at most 10 entries, each entry's urgency is at least `0.5`, the
entries are ordered by urgency descending, and each entry is a selected
history row scored by the `CASE` formula — `days_since_last / avg` when
`avg_days_between > 0`, else `0.5`. -/
theorem getRecommendations_ranking_spec (now : ℚ) (listId : String)
    (history : List ItemHistory) (items : List Item) (hl : listId ≠ "") :
    GetRecommendations now listId (.ok history) items =
      .ok (recommendationQuery now listId history items) ∧
    (recommendationQuery now listId history items).length ≤ 10 ∧
    (∀ r ∈ recommendationQuery now listId history items, (1:ℚ)/2 ≤ r.urgency) ∧
    List.Pairwise (fun a b => b.urgency ≤ a.urgency)
      (recommendationQuery now listId history items) ∧
    (∀ r ∈ recommendationQuery now listId history items, ∃ h ∈ history,
      selectsRow listId items h = true ∧ r.name = h.itemName ∧
      r.urgency = (if 0 < h.avgDaysBetween then ((now - h.lastAddedAt) / 86400) / h.avgDaysBetween
                   else 1/2)) := by
  refine ⟨by simp [GetRecommendations, hl], ?_, ?_, ?_, ?_⟩
  · exact le_trans (List.length_filter_le _ _) (by simp)
  · intro r hr
    have := (List.mem_filter.mp hr).2
    exact of_decide_eq_true this
  · have hsorted : List.Pairwise recUrgencyGE
        (((history.filter (selectsRow listId items)).map
          fun h => { name := h.itemName, urgency := urgencyOf now h }).insertionSort
            recUrgencyGE) :=
      List.sorted_insertionSort recUrgencyGE _
    exact List.Pairwise.sublist ((List.filter_sublist _).trans (List.take_sublist _ _)) hsorted
  · intro r hr
    have hr2 : r ∈ (((history.filter (selectsRow listId items)).map
        fun h => ({ name := h.itemName, urgency := urgencyOf now h } : Recommendation)).insertionSort
          recUrgencyGE) :=
      List.mem_of_mem_take (List.mem_filter.mp hr).1
    have hr3 : r ∈ (history.filter (selectsRow listId items)).map
        fun h => ({ name := h.itemName, urgency := urgencyOf now h } : Recommendation) :=
      (List.mem_insertionSort recUrgencyGE).mp hr2
    obtain ⟨h, hh, heq⟩ := List.mem_map.mp hr3
    refine ⟨h, (List.mem_filter.mp hh).1, (List.mem_filter.mp hh).2, ?_, ?_⟩
    · rw [← heq]
    · rw [← heq]
      rfl

/-- Witness for C1 at a concrete input. -/
theorem getRecommendations_ranking_spec_witness :
    ("L" : String) ≠ "" ∧
    (GetRecommendations 0 "L"
        (.ok [{ listId := "L", itemName := "milk", addedCount := 3, lastAddedAt := -864000,
                avgDaysBetween := 5, dismissed := false }]) [] =
      .ok (recommendationQuery 0 "L"
        [{ listId := "L", itemName := "milk", addedCount := 3, lastAddedAt := -864000,
           avgDaysBetween := 5, dismissed := false }] []) ∧
    (recommendationQuery 0 "L"
        [{ listId := "L", itemName := "milk", addedCount := 3, lastAddedAt := -864000,
           avgDaysBetween := 5, dismissed := false }] []).length ≤ 10 ∧
    (∀ r ∈ recommendationQuery 0 "L"
        [{ listId := "L", itemName := "milk", addedCount := 3, lastAddedAt := -864000,
           avgDaysBetween := 5, dismissed := false }] [], (1:ℚ)/2 ≤ r.urgency) ∧
    List.Pairwise (fun a b => b.urgency ≤ a.urgency)
      (recommendationQuery 0 "L"
        [{ listId := "L", itemName := "milk", addedCount := 3, lastAddedAt := -864000,
           avgDaysBetween := 5, dismissed := false }] []) ∧
    (∀ r ∈ recommendationQuery 0 "L"
        [{ listId := "L", itemName := "milk", addedCount := 3, lastAddedAt := -864000,
           avgDaysBetween := 5, dismissed := false }] [],
      ∃ h ∈ [({ listId := "L", itemName := "milk", addedCount := 3, lastAddedAt := -864000,
                avgDaysBetween := 5, dismissed := false } : ItemHistory)],
        selectsRow "L" [] h = true ∧ r.name = h.itemName ∧
        r.urgency = (if 0 < h.avgDaysBetween then ((0 - h.lastAddedAt) / 86400) / h.avgDaysBetween
                     else 1/2))) :=
  ⟨by decide,
   getRecommendations_ranking_spec 0 "L"
     [{ listId := "L", itemName := "milk", addedCount := 3, lastAddedAt := -864000,
        avgDaysBetween := 5, dismissed := false }] [] (by decide)⟩

/-- The boolean selection predicate in propositional form. -/
theorem selectsRow_iff (listId : String) (items : List Item) (h : ItemHistory) :
    selectsRow listId items h = true ↔
      h.listId = listId ∧ h.dismissed = false ∧ 2 ≤ h.addedCount ∧
      ∀ it ∈ items, it.listId = listId → it.name ≠ h.itemName := by
  constructor
  · intro hs
    have h4 := (Bool.and_eq_true _ _).mp hs
    have h123 := (Bool.and_eq_true _ _).mp h4.1
    have h12 := (Bool.and_eq_true _ _).mp h123.1
    refine ⟨eq_of_beq h12.1, by simpa using h12.2, of_decide_eq_true h123.2, ?_⟩
    intro it hit hlid hname
    have hany := h4.2
    rw [Bool.not_eq_true'] at hany
    have htrue : (items.any fun it => it.listId == listId && it.name == h.itemName) = true :=
      List.any_eq_true.mpr ⟨it, hit, by simp [hlid, hname]⟩
    rw [htrue] at hany
    cases hany
  · rintro ⟨h1, h2, h3, h4⟩
    have hany : (items.any fun it => it.listId == listId && it.name == h.itemName) = false := by
      rw [← Bool.not_eq_true]
      intro hc
      obtain ⟨it, hit, hb⟩ := List.any_eq_true.mp hc
      obtain ⟨hb1, hb2⟩ := (Bool.and_eq_true _ _).mp hb
      exact h4 it hit (eq_of_beq hb1) (eq_of_beq hb2)
    simp [selectsRow, h1, h2, h3, hany]

/-- C2 counterexample: eleven qualifying rows with distinct urgencies, all at
least `0.5`; the lowest-ranked row qualifies and has urgency at least `0.5`,
is not returned, yet exactly ten rows — not more than ten — rank above it. -/
theorem getRecommendations_selection_counterexample :
    ({ listId := "L", itemName := "r11", addedCount := 2, lastAddedAt := -86400,
       avgDaysBetween := 1, dismissed := false } : ItemHistory) ∈
      ([{ listId := "L", itemName := "r01", addedCount := 2, lastAddedAt := -950400,
          avgDaysBetween := 1, dismissed := false },
        { listId := "L", itemName := "r02", addedCount := 2, lastAddedAt := -864000,
          avgDaysBetween := 1, dismissed := false },
        { listId := "L", itemName := "r03", addedCount := 2, lastAddedAt := -777600,
          avgDaysBetween := 1, dismissed := false },
        { listId := "L", itemName := "r04", addedCount := 2, lastAddedAt := -691200,
          avgDaysBetween := 1, dismissed := false },
        { listId := "L", itemName := "r05", addedCount := 2, lastAddedAt := -604800,
          avgDaysBetween := 1, dismissed := false },
        { listId := "L", itemName := "r06", addedCount := 2, lastAddedAt := -518400,
          avgDaysBetween := 1, dismissed := false },
        { listId := "L", itemName := "r07", addedCount := 2, lastAddedAt := -432000,
          avgDaysBetween := 1, dismissed := false },
        { listId := "L", itemName := "r08", addedCount := 2, lastAddedAt := -345600,
          avgDaysBetween := 1, dismissed := false },
        { listId := "L", itemName := "r09", addedCount := 2, lastAddedAt := -259200,
          avgDaysBetween := 1, dismissed := false },
        { listId := "L", itemName := "r10", addedCount := 2, lastAddedAt := -172800,
          avgDaysBetween := 1, dismissed := false },
        { listId := "L", itemName := "r11", addedCount := 2, lastAddedAt := -86400,
          avgDaysBetween := 1, dismissed := false }] : List ItemHistory) ∧
    selectsRow "L" []
      { listId := "L", itemName := "r11", addedCount := 2, lastAddedAt := -86400,
        avgDaysBetween := 1, dismissed := false } = true ∧
    (1:ℚ)/2 ≤ urgencyOf 0
      { listId := "L", itemName := "r11", addedCount := 2, lastAddedAt := -86400,
        avgDaysBetween := 1, dismissed := false } ∧
    ({ name := "r11",
       urgency := urgencyOf 0
         { listId := "L", itemName := "r11", addedCount := 2, lastAddedAt := -86400,
           avgDaysBetween := 1, dismissed := false } } : Recommendation) ∉
      recommendationQuery 0 "L"
        [{ listId := "L", itemName := "r01", addedCount := 2, lastAddedAt := -950400,
           avgDaysBetween := 1, dismissed := false },
         { listId := "L", itemName := "r02", addedCount := 2, lastAddedAt := -864000,
           avgDaysBetween := 1, dismissed := false },
         { listId := "L", itemName := "r03", addedCount := 2, lastAddedAt := -777600,
           avgDaysBetween := 1, dismissed := false },
         { listId := "L", itemName := "r04", addedCount := 2, lastAddedAt := -691200,
           avgDaysBetween := 1, dismissed := false },
         { listId := "L", itemName := "r05", addedCount := 2, lastAddedAt := -604800,
           avgDaysBetween := 1, dismissed := false },
         { listId := "L", itemName := "r06", addedCount := 2, lastAddedAt := -518400,
           avgDaysBetween := 1, dismissed := false },
         { listId := "L", itemName := "r07", addedCount := 2, lastAddedAt := -432000,
           avgDaysBetween := 1, dismissed := false },
         { listId := "L", itemName := "r08", addedCount := 2, lastAddedAt := -345600,
           avgDaysBetween := 1, dismissed := false },
         { listId := "L", itemName := "r09", addedCount := 2, lastAddedAt := -259200,
           avgDaysBetween := 1, dismissed := false },
         { listId := "L", itemName := "r10", addedCount := 2, lastAddedAt := -172800,
           avgDaysBetween := 1, dismissed := false },
         { listId := "L", itemName := "r11", addedCount := 2, lastAddedAt := -86400,
           avgDaysBetween := 1, dismissed := false }] [] ∧
    (([{ listId := "L", itemName := "r01", addedCount := 2, lastAddedAt := -950400,
         avgDaysBetween := 1, dismissed := false },
       { listId := "L", itemName := "r02", addedCount := 2, lastAddedAt := -864000,
         avgDaysBetween := 1, dismissed := false },
       { listId := "L", itemName := "r03", addedCount := 2, lastAddedAt := -777600,
         avgDaysBetween := 1, dismissed := false },
       { listId := "L", itemName := "r04", addedCount := 2, lastAddedAt := -691200,
         avgDaysBetween := 1, dismissed := false },
       { listId := "L", itemName := "r05", addedCount := 2, lastAddedAt := -604800,
         avgDaysBetween := 1, dismissed := false },
       { listId := "L", itemName := "r06", addedCount := 2, lastAddedAt := -518400,
         avgDaysBetween := 1, dismissed := false },
       { listId := "L", itemName := "r07", addedCount := 2, lastAddedAt := -432000,
         avgDaysBetween := 1, dismissed := false },
       { listId := "L", itemName := "r08", addedCount := 2, lastAddedAt := -345600,
         avgDaysBetween := 1, dismissed := false },
       { listId := "L", itemName := "r09", addedCount := 2, lastAddedAt := -259200,
         avgDaysBetween := 1, dismissed := false },
       { listId := "L", itemName := "r10", addedCount := 2, lastAddedAt := -172800,
         avgDaysBetween := 1, dismissed := false },
       { listId := "L", itemName := "r11", addedCount := 2, lastAddedAt := -86400,
         avgDaysBetween := 1, dismissed := false }] : List ItemHistory).filter
      fun h => decide (urgencyOf 0
        { listId := "L", itemName := "r11", addedCount := 2, lastAddedAt := -86400,
          avgDaysBetween := 1, dismissed := false } < urgencyOf 0 h)).length = 10 := by
  decide

/-- C2 (amended): a name appears in the recommendations only for a history row
of the list with `dismissed = false`, `added_count ≥ 2`, whose name is not
among the list's current items (case-sensitive exact match); and every such
row with urgency at least `0.5` is returned unless at least ten other
candidate rows score at or above it (so that it falls outside the top 10). -/
theorem getRecommendations_selection_spec (now : ℚ) (listId : String)
    (history : List ItemHistory) (items : List Item) :
    (∀ r ∈ recommendationQuery now listId history items, ∃ h ∈ history,
      h.itemName = r.name ∧ h.listId = listId ∧ h.dismissed = false ∧ 2 ≤ h.addedCount ∧
      ∀ it ∈ items, it.listId = listId → it.name ≠ h.itemName) ∧
    (∀ h ∈ history, selectsRow listId items h = true → (1:ℚ)/2 ≤ urgencyOf now h →
      ({ name := h.itemName, urgency := urgencyOf now h } : Recommendation) ∉
        recommendationQuery now listId history items →
      11 ≤ (((history.filter (selectsRow listId items)).map
          fun h2 => ({ name := h2.itemName, urgency := urgencyOf now h2 } : Recommendation)).filter
            fun r => decide (urgencyOf now h ≤ r.urgency)).length) := by
  constructor
  · intro r hr
    have hr2 : r ∈ (((history.filter (selectsRow listId items)).map
        fun h => ({ name := h.itemName, urgency := urgencyOf now h } : Recommendation)).insertionSort
          recUrgencyGE) :=
      List.mem_of_mem_take (List.mem_filter.mp hr).1
    obtain ⟨h, hh, heq⟩ := List.mem_map.mp ((List.mem_insertionSort recUrgencyGE).mp hr2)
    obtain ⟨hmem, hsel⟩ := List.mem_filter.mp hh
    obtain ⟨h1, h2, h3, h4⟩ := (selectsRow_iff listId items h).mp hsel
    exact ⟨h, hmem, by rw [← heq], h1, h2, h3, h4⟩
  · intro h hmem hsel hu hnot
    have hqdef : recommendationQuery now listId history items =
        ((((history.filter (selectsRow listId items)).map
          fun h2 => ({ name := h2.itemName, urgency := urgencyOf now h2 } :
            Recommendation)).insertionSort recUrgencyGE).take 10).filter
              fun r => decide ((1:ℚ)/2 ≤ r.urgency) := rfl
    rw [hqdef] at hnot
    have hmem1 : ({ name := h.itemName, urgency := urgencyOf now h } : Recommendation) ∈
        (history.filter (selectsRow listId items)).map
          fun h2 => ({ name := h2.itemName, urgency := urgencyOf now h2 } : Recommendation) :=
      List.mem_map.mpr ⟨h, List.mem_filter.mpr ⟨hmem, hsel⟩, rfl⟩
    have hmem2 : ({ name := h.itemName, urgency := urgencyOf now h } : Recommendation) ∈
        ((history.filter (selectsRow listId items)).map
          fun h2 => ({ name := h2.itemName, urgency := urgencyOf now h2 } :
            Recommendation)).insertionSort recUrgencyGE :=
      (List.mem_insertionSort recUrgencyGE).mpr hmem1
    have hnt : ({ name := h.itemName, urgency := urgencyOf now h } : Recommendation) ∉
        (((history.filter (selectsRow listId items)).map
          fun h2 => ({ name := h2.itemName, urgency := urgencyOf now h2 } :
            Recommendation)).insertionSort recUrgencyGE).take 10 := by
      intro hc
      exact hnot (List.mem_filter.mpr ⟨hc, decide_eq_true hu⟩)
    have hdrop : ({ name := h.itemName, urgency := urgencyOf now h } : Recommendation) ∈
        (((history.filter (selectsRow listId items)).map
          fun h2 => ({ name := h2.itemName, urgency := urgencyOf now h2 } :
            Recommendation)).insertionSort recUrgencyGE).drop 10 := by
      have hx := hmem2
      rw [← List.take_append_drop 10 (((history.filter (selectsRow listId items)).map
        fun h2 => ({ name := h2.itemName, urgency := urgencyOf now h2 } :
          Recommendation)).insertionSort recUrgencyGE)] at hx
      rcases List.mem_append.mp hx with hc | hc
      · exact absurd hc hnt
      · exact hc
    have hlen10 : ((((history.filter (selectsRow listId items)).map
        fun h2 => ({ name := h2.itemName, urgency := urgencyOf now h2 } :
          Recommendation)).insertionSort recUrgencyGE).take 10).length = 10 := by
      have hgt : 10 < (((history.filter (selectsRow listId items)).map
          fun h2 => ({ name := h2.itemName, urgency := urgencyOf now h2 } :
            Recommendation)).insertionSort recUrgencyGE).length := by
        by_contra hle
        push_neg at hle
        rw [List.drop_eq_nil_of_le hle] at hdrop
        cases hdrop
      rw [List.length_take]
      omega
    have hsorted : List.Pairwise recUrgencyGE
        (((history.filter (selectsRow listId items)).map
          fun h2 => ({ name := h2.itemName, urgency := urgencyOf now h2 } :
            Recommendation)).insertionSort recUrgencyGE) :=
      List.sorted_insertionSort recUrgencyGE _
    have hrel : ∀ a ∈ ((((history.filter (selectsRow listId items)).map
        fun h2 => ({ name := h2.itemName, urgency := urgencyOf now h2 } :
          Recommendation)).insertionSort recUrgencyGE).take 10),
        urgencyOf now h ≤ a.urgency := by
      have hpw := hsorted
      rw [← List.take_append_drop 10 (((history.filter (selectsRow listId items)).map
        fun h2 => ({ name := h2.itemName, urgency := urgencyOf now h2 } :
          Recommendation)).insertionSort recUrgencyGE)] at hpw
      have hcross := (List.pairwise_append.mp hpw).2.2
      exact fun a ha => hcross a ha _ hdrop
    have htake : ((((history.filter (selectsRow listId items)).map
        fun h2 => ({ name := h2.itemName, urgency := urgencyOf now h2 } :
          Recommendation)).insertionSort recUrgencyGE).take 10).filter
            (fun r => decide (urgencyOf now h ≤ r.urgency)) =
        (((history.filter (selectsRow listId items)).map
          fun h2 => ({ name := h2.itemName, urgency := urgencyOf now h2 } :
            Recommendation)).insertionSort recUrgencyGE).take 10 :=
      List.filter_eq_self.mpr fun a ha => decide_eq_true (hrel a ha)
    have hdropfilter : 0 < (((((history.filter (selectsRow listId items)).map
        fun h2 => ({ name := h2.itemName, urgency := urgencyOf now h2 } :
          Recommendation)).insertionSort recUrgencyGE).drop 10).filter
            (fun r => decide (urgencyOf now h ≤ r.urgency))).length :=
      List.length_pos.mpr (List.ne_nil_of_mem
        (List.mem_filter.mpr ⟨hdrop, decide_eq_true (le_refl _)⟩))
    have hsortedfilter : 11 ≤ ((((history.filter (selectsRow listId items)).map
        fun h2 => ({ name := h2.itemName, urgency := urgencyOf now h2 } :
          Recommendation)).insertionSort recUrgencyGE).filter
            (fun r => decide (urgencyOf now h ≤ r.urgency))).length := by
      rw [← List.take_append_drop 10 (((history.filter (selectsRow listId items)).map
        fun h2 => ({ name := h2.itemName, urgency := urgencyOf now h2 } :
          Recommendation)).insertionSort recUrgencyGE), List.filter_append, List.length_append,
        htake, hlen10]
      omega
    have hperm : ((((history.filter (selectsRow listId items)).map
        fun h2 => ({ name := h2.itemName, urgency := urgencyOf now h2 } :
          Recommendation)).insertionSort recUrgencyGE).filter
            (fun r => decide (urgencyOf now h ≤ r.urgency))).length =
        (((history.filter (selectsRow listId items)).map
          fun h2 => ({ name := h2.itemName, urgency := urgencyOf now h2 } :
            Recommendation)).filter (fun r => decide (urgencyOf now h ≤ r.urgency))).length :=
      ((List.perm_insertionSort recUrgencyGE _).filter _).length_eq
    rw [hperm] at hsortedfilter
    exact hsortedfilter
